import Mathlib

/-!
Shallow embedding of the `create-lithia-app` scaffolding CLI
(`src/cli/index.ts`, current revision, together with
`src/utils/index.ts`), plus theorems settling the specification
claims about configuration resolution and the project materializer.

The CLI is a linear orchestration of prompts, filesystem calls and
child processes.  We embed it as pure functions from the parsed flag
record (`CLIOptions`) and an ambient world (`Env`: probe results,
prompt answers, filesystem facts, child-process outcomes) to a result
plus a trace of the observable side effects (`Event`).
-/

set_option maxHeartbeats 1000000

namespace CLA

/-- A JSON value as far as the manifest rewrite observes it: the
rewrite only writes string values (`name`, `version`) and deletes a
key, so every non-string JSON value passes through opaquely and is
modelled by the `other` constructor. -/
inductive JValue where
  | str (s : String)
  | other (n : Nat)
deriving DecidableEq

/-- A parsed `package.json` object: ordered key/value pairs, as
produced by `JSON.parse` (keys unique in any real manifest). -/
abbrev Manifest := List (String × JValue)

/-- Key lookup in a parsed JSON object. -/
def jlookup (k : String) : Manifest → Option JValue
  | [] => none
  | (k', v) :: rest => if k' = k then some v else jlookup k rest

/-- JavaScript property assignment `obj[k] = v`: overwrites the
existing entry in place, or appends the key at the end. -/
def setKey (k : String) (v : JValue) : Manifest → Manifest
  | [] => [(k, v)]
  | (k', v') :: rest => if k' = k then (k, v) :: rest else (k', v') :: setKey k v rest

/-- JavaScript `delete obj[k]`: removes the entry with key `k`
(keys are unique in a parsed JSON object). -/
def delKey (k : String) : Manifest → Manifest
  | [] => []
  | (k', v) :: rest => if k' = k then delKey k rest else (k', v) :: delKey k rest

/-- Result of `validateProjectName` in `src/utils/index.ts`: the
function returns `true` or an error-message string. -/
inductive NameValidation where
  | valid
  | msg (m : String)
deriving DecidableEq

/-- Character class of the regex `^[a-z0-9-]+$`. -/
def isAllowedChar (c : Char) : Bool :=
  (Char.ofNat 97 ≤ c && c ≤ Char.ofNat 122) || (Char.ofNat 48 ≤ c && c ≤ Char.ofNat 57) || c = Char.ofNat 45

/-- `validateProjectName` from `src/utils/index.ts`: empty input gets
the empty-specific message; a non-empty input matches `^[a-z0-9-]+$`
exactly when every character is in the class. -/
def validateProjectName (value : String) : NameValidation :=
  if value = "" then .msg "Project name cannot be empty"
  else if value.data.all isAllowedChar then .valid
  else .msg "Project name can only contain lowercase letters, numbers, and hyphens"

/-- A template catalog entry (`ProjectTemplate` from `lithia/types`). -/
structure ProjectTemplate where
  name : String
  branch : String
  url : String
  description : String
deriving DecidableEq

/-- First catalog entry (`TEMPLATES[0]`). -/
def defaultTemplate : ProjectTemplate :=
  { name := "default"
    branch := "main"
    url := "https://github.com/lithiajs/lithia-default-app-template.git"
    description := "Setup a Lithia.js app with no presets" }

/-- The fixed template catalog (`TEMPLATES` in `src/cli/index.ts`). -/
def TEMPLATES : List ProjectTemplate :=
  [ defaultTemplate,
    { name := "with-drizzle"
      branch := "main"
      url := "https://github.com/lithiajs/lithia-with-drizzle-template.git"
      description := "Setup a Lithia.js app using Drizzle ORM" },
    { name := "with-prisma"
      branch := "main"
      url := "https://github.com/lithiajs/lithia-with-prisma-template.git"
      description := "Setup a Lithia.js app using Prisma ORM" } ]

/-- The parsed flag record (`CLIOptions` in `src/cli/index.ts`).
Every field is optional, mirroring the TypeScript type where each
property may be `undefined`; `noInstall`/`noGit` stand for the
`no-install`/`no-git` flags, which the parser surfaces as their own
boolean fields. -/
structure CLIOptions where
  name : Option String := none
  template : Option String := none
  packageManager : Option String := none
  yes : Option Bool := none
  install : Option Bool := none
  noInstall : Option Bool := none
  overwrite : Option Bool := none
  git : Option Bool := none
  noGit : Option Bool := none
deriving DecidableEq

/-- JavaScript truthiness of a possibly-undefined boolean. -/
def truthyB : Option Bool → Bool
  | none => false
  | some b => b

/-- JavaScript truthiness of a possibly-undefined string (the empty
string is falsy). -/
def truthyS : Option String → Bool
  | none => false
  | some s => s != ""

/-- `isValidPackageManager` from `src/cli/index.ts`. -/
def isValidPackageManager (manager : String) : Bool :=
  ["npm", "yarn", "pnpm", "bun"].contains manager

/-- Availability snapshot of the probed tools (`checkSystemDependencies`
result shape). -/
structure SystemDeps where
  npm : Bool
  yarn : Bool
  pnpm : Bool
  bun : Bool
  git : Bool
deriving DecidableEq

/-- Dynamic key access `checks[key]` on the availability record; an
unknown key is `undefined`, hence falsy. -/
def SystemDeps.lookup (d : SystemDeps) (k : String) : Bool :=
  if k = "npm" then d.npm
  else if k = "yarn" then d.yarn
  else if k = "pnpm" then d.pnpm
  else if k = "bun" then d.bun
  else if k = "git" then d.git
  else false

/-- `args.template && !TEMPLATES.some((t) => t.name === args.template)`. -/
def invalidTemplate (args : CLIOptions) : Bool :=
  truthyS args.template && !(TEMPLATES.any fun t => some t.name == args.template)

/-- `args['package-manager'] && !isValidPackageManager(args['package-manager'])`. -/
def invalidPackageManager (args : CLIOptions) : Bool :=
  truthyS args.packageManager && !(isValidPackageManager (args.packageManager.getD ""))

/-- `validateAndParseArgs` from `src/cli/index.ts`: the five flag
checks, in source order, each a thrown error. -/
def validateAndParseArgs (args : CLIOptions) : Except String CLIOptions :=
  if truthyB args.yes && !truthyS args.name then
    .error "Project name is required when using --yes flag"
  else if invalidTemplate args then
    .error ("Invalid template: " ++ args.template.getD "")
  else if invalidPackageManager args then
    .error ("Invalid package manager: " ++ args.packageManager.getD "")
  else if truthyB args.install && truthyB args.noInstall then
    .error "Cannot use both --install and --no-install"
  else if truthyB args.git && truthyB args.noGit then
    .error "Cannot use both --git and --no-git"
  else .ok args

/-- An observable side effect of the CLI: a version-probe subprocess,
an interactive prompt being shown, a filesystem call, or an executed
shell command (with its working directory). -/
inductive Event where
  | probe (tool : String)
  | promptShown (question : String)
  | fsStat (target : String)
  | fsRm (target : String)
  | fsMkdir (target : String)
  | fsRead (target : String)
  | fsWrite (target : String) (content : Manifest) (indent : Nat)
  | execCmd (command : String) (cwd : String)
deriving DecidableEq

/-- The ordered trace of observable side effects of a run. -/
abbrev Trace := List Event

/-- Result of a pipeline stage: normal value, the neutral
`process.exit(0)`, or a thrown error (its message). -/
inductive PResult (α : Type) where
  | ok (a : α)
  | exit0
  | err (m : String)
deriving DecidableEq

/-- Sequencing of trace-producing stages: an `exit0` or a thrown
error short-circuits the rest of the pipeline. -/
def pbind {α β : Type} : PResult α × Trace → (α → PResult β × Trace) → PResult β × Trace
  | (.ok a, t), f => let (r, t') := f a; (r, t ++ t')
  | (.exit0, t), _ => (.exit0, t)
  | (.err m, t), _ => (.err m, t)

/-- The ambient world the CLI interacts with: probe results, the
answers the user submits to each interactive prompt (the prompt
library re-asks until its validator accepts, so `promptName` is the
accepted answer), filesystem facts about the target directory and the
cloned template, and the success of each spawned command. -/
structure Env where
  checks : SystemDeps
  promptName : String
  promptTemplate : ProjectTemplate
  promptInstallDeps : Bool
  promptPackageManager : String
  promptInitGit : Bool
  promptOverwrite : Bool
  dirExists : Bool
  gitDirExists : Bool
  pkgLockExists : Bool
  pkg : Manifest
  cloneOk : Bool
  gitInitOk : Bool
  installOk : Bool

/-- Final fate of the process. -/
inductive Outcome where
  | completed
  | canceled
  | failed (m : String)
deriving DecidableEq

/-- Exit code of each outcome: success and user cancellation exit 0,
a caught error exits 1 (the `catch` block in `main.run`). -/
def exitCode : Outcome → Nat
  | .completed => 0
  | .canceled => 0
  | .failed _ => 1

/-- `checkSystemDependencies`: five concurrent `pingVersion` probes;
their results come from the environment. -/
def checkSystemDependencies (env : Env) : SystemDeps × Trace :=
  (env.checks, [.probe "npm", .probe "yarn", .probe "pnpm", .probe "bun", .probe "git"])

/-- `getProjectName`: the interactive name prompt; its `format`
callback trims the submitted answer. -/
def getProjectName (env : Env) : String × Trace :=
  (env.promptName.trim, [.promptShown "name"])

/-- The intermediate record `getBaseConfig` returns. -/
structure BaseConfig where
  projectName : String
  template : ProjectTemplate
  installDependencies : Bool
  initializeGit : Bool
  packageManager : Option String
deriving DecidableEq

/-- `getInstallFlag` from `src/cli/index.ts`. -/
def getInstallFlag (options : CLIOptions) : Bool :=
  if truthyB options.install then true
  else if truthyB options.noInstall then false
  else true

/-- `getGitFlag` from `src/cli/index.ts`. -/
def getGitFlag (options : CLIOptions) : Bool :=
  if truthyB options.git then true
  else if truthyB options.noGit then false
  else true

/-- `getBaseConfig` from `src/cli/index.ts`.  Note that the source
calls `validateProjectName(projectName)` and discards its returned
value (the validator returns a message string rather than throwing),
which the `let _ := ...` mirrors. -/
def getBaseConfig (options : CLIOptions) (env : Env) : BaseConfig × Trace :=
  let (projectName, t) :=
    if truthyS options.name then (options.name.getD "", ([] : Trace))
    else getProjectName env
  let _ := validateProjectName projectName
  ({ projectName := projectName
     template := (TEMPLATES.find? fun tpl => some tpl.name == options.template).getD defaultTemplate
     installDependencies := getInstallFlag options
     initializeGit := getGitFlag options
     packageManager := options.packageManager }, t)

/-- The resolved execution plan (`ProjectConfig`). -/
structure ProjectConfig where
  projectName : String
  template : ProjectTemplate
  packageManager : Option String
  installDependencies : Bool
  initializeGit : Bool
  overwrite : Option Bool
deriving DecidableEq

/-- `getAutoConfig` from `src/cli/index.ts`: non-interactive
resolution; an explicitly requested package manager that the probe
snapshot reports unavailable is a thrown error. -/
def getAutoConfig (options : CLIOptions) (checks : SystemDeps) (base : BaseConfig) :
    PResult ProjectConfig × Trace :=
  if truthyS options.packageManager && !(checks.lookup (options.packageManager.getD "")) then
    (.err ("Package manager " ++ options.packageManager.getD "" ++ " not available"), [])
  else
    (.ok { projectName := base.projectName
           template := base.template
           packageManager := some (if truthyS options.packageManager then options.packageManager.getD "" else "npm")
           installDependencies := !truthyB options.noInstall
           initializeGit := options.git.getD (!truthyB options.noGit)
           overwrite := options.overwrite }, [])

/-- `getInteractiveConfig` from `src/cli/index.ts`: each prompt is
shown exactly when its `type` callback is non-null; skipped questions
contribute no answer, so the spread keeps the base value.  The
package-manager question's `type` receives `prev`, the value of the
previously answered question (the install confirm if shown, else the
template selection object — truthy — if shown, else `undefined`). -/
def getInteractiveConfig (options : CLIOptions) (checks : SystemDeps)
    (base : BaseConfig) (env : Env) : PResult ProjectConfig × Trace :=
  let templateShown := !truthyS options.template
  let installShown := options.install.isNone
  let prevTruthy :=
    if installShown then env.promptInstallDeps
    else if templateShown then true
    else false
  let pmShown := (prevTruthy || truthyB options.install) && !truthyS options.packageManager
  let gitShown := checks.git && options.git.isNone
  let t :=
    (if templateShown then [Event.promptShown "template"] else [])
      ++ (if installShown then [Event.promptShown "installDependencies"] else [])
      ++ (if pmShown then [Event.promptShown "packageManager"] else [])
      ++ (if gitShown then [Event.promptShown "initializeGit"] else [])
  (.ok { projectName := base.projectName
         template := if templateShown then env.promptTemplate else base.template
         packageManager := if pmShown then some env.promptPackageManager else base.packageManager
         installDependencies := if installShown then env.promptInstallDeps else base.installDependencies
         initializeGit := if gitShown then env.promptInitGit else base.initializeGit
         overwrite := none }, t)

/-- `getProjectConfig` from `src/cli/index.ts`: probe the system,
build the base config (possibly prompting for the name), then resolve
in the mode chosen by the `--yes` flag. -/
def getProjectConfig (options : CLIOptions) (env : Env) : PResult ProjectConfig × Trace :=
  let (checks, t1) := checkSystemDependencies env
  let (base, t2) := getBaseConfig options env
  let (res, t3) :=
    if truthyB options.yes then getAutoConfig options checks base
    else getInteractiveConfig options checks base env
  (res, t1 ++ t2 ++ t3)

/-- `path.join(dir, name)`, modelled on relative paths. -/
def pjoin (dir name : String) : String := dir ++ "/" ++ name

/-- `executeCommand` from `src/cli/index.ts`: runs a shell command in
`cwd`; the promise rejects when the child process fails, which the
environment decides per call site. -/
def executeCommand (ok : Bool) (command : String) (cwd : String) : PResult Unit × Trace :=
  if ok then (.ok (), [.execCmd command cwd])
  else (.err ("Command failed: " ++ command), [.execCmd command cwd])

/-- The clone command line built in `cloneTemplate`. -/
def cloneCmd (t : ProjectTemplate) : String :=
  "git clone --branch " ++ t.branch ++ " " ++ t.url ++ " ."

/-- `handleExistingDirectory` from `src/cli/index.ts`: stat the
target; if it exists and `overwrite` was not pre-approved, confirm
interactively — declining is `process.exit(0)`; approval (flag or
prompt) recursively deletes the directory; the directory is then
created recursively. -/
def handleExistingDirectory (dir : String) (config : ProjectConfig) (env : Env) :
    PResult Unit × Trace :=
  if env.dirExists then
    if !truthyB config.overwrite then
      if env.promptOverwrite then
        (.ok (), [.fsStat dir, .promptShown "overwrite", .fsRm dir, .fsMkdir dir])
      else
        (.exit0, [.fsStat dir, .promptShown "overwrite"])
    else
      (.ok (), [.fsStat dir, .fsRm dir, .fsMkdir dir])
  else
    (.ok (), [.fsStat dir, .fsMkdir dir])

/-- `cloneTemplate` from `src/cli/index.ts`. -/
def cloneTemplate (dir : String) (template : ProjectTemplate) (env : Env) :
    PResult Unit × Trace :=
  executeCommand env.cloneOk (cloneCmd template) dir

/-- The pure manifest rewrite inside `updatePackageJson`: assign
`name`, assign `version = "0.1.0"`, delete `description`. -/
def updatePkg (pkg : Manifest) (projectName : String) : Manifest :=
  delKey "description" (setKey "version" (.str "0.1.0") (setKey "name" (.str projectName) pkg))

/-- `updatePackageJson` from `src/cli/index.ts`: read and parse the
manifest (its parsed content comes from the environment), rewrite it,
and write it back with `JSON.stringify(pkg, null, 2)` — the `2` is the
indentation argument recorded on the write event. -/
def updatePackageJson (dir : String) (projectName : String) (env : Env) :
    PResult Unit × Trace :=
  let out := updatePkg env.pkg projectName
  (.ok (), [.fsRead (pjoin dir "package.json"), .fsWrite (pjoin dir "package.json") out 2])

/-- `fs.rm(target, { recursive: true })` — no `force` option, so the
promise rejects with `ENOENT` when the target does not exist. -/
def rmStep (targetExists : Bool) (target : String) : PResult Unit × Trace :=
  if targetExists then (.ok (), [.fsRm target])
  else (.err ("ENOENT: no such file or directory, rm " ++ target), [])

/-- `createProject` from `src/cli/index.ts`, in source order:
existing-directory handling, clone, manifest rewrite, removal of
`.git`, removal of `package-lock.json`, then the optional git
initialization and dependency installation. -/
def createProject (config : ProjectConfig) (env : Env) : PResult Unit × Trace :=
  let dir := config.projectName
  pbind (handleExistingDirectory dir config env) fun _ =>
  pbind (cloneTemplate dir config.template env) fun _ =>
  pbind (updatePackageJson dir config.projectName env) fun _ =>
  pbind (rmStep env.gitDirExists (pjoin dir ".git")) fun _ =>
  pbind (rmStep env.pkgLockExists (pjoin dir "package-lock.json")) fun _ =>
  pbind (if config.initializeGit then executeCommand env.gitInitOk "git init" dir
         else (.ok (), [])) fun _ =>
  if config.installDependencies && truthyS config.packageManager then
    executeCommand env.installOk (config.packageManager.getD "" ++ " install") dir
  else (.ok (), [])

/-- The body of `main.run` up to `displaySuccessMessage`: flag
validation (throwing before anything else runs), configuration
resolution, then the materializer. -/
def runPipeline (args : CLIOptions) (env : Env) : PResult Unit × Trace :=
  match validateAndParseArgs args with
  | .error m => (.err m, [])
  | .ok options =>
      pbind (getProjectConfig options env) fun config =>
      createProject config env

/-- `main.run` with its `try`/`catch`: a thrown error is reported and
the process exits 1; `process.exit(0)` is the neutral cancellation;
otherwise the run completes (exit 0). -/
def runCLI (args : CLIOptions) (env : Env) : Outcome × Trace :=
  match runPipeline args env with
  | (.ok _, t) => (.completed, t)
  | (.exit0, t) => (.canceled, t)
  | (.err m, t) => (.failed m, t)

/-- Events that touch the filesystem or spawn a materializer command
(everything except probes and prompts). -/
def materializerEvent : Event → Bool
  | .probe _ => false
  | .promptShown _ => false
  | _ => true

/-- Events that modify the world: deletes, directory creation, file
writes and executed commands. -/
def destructive : Event → Bool
  | .fsRm _ => true
  | .fsMkdir _ => true
  | .fsWrite _ _ _ => true
  | .execCmd _ _ => true
  | _ => false

/-- Availability snapshot with every tool present. -/
def allChecks : SystemDeps :=
  { npm := true, yarn := true, pnpm := true, bun := true, git := true }

/-- A small template manifest, as cloned. -/
def samplePkg : Manifest :=
  [("name", .str "lithia-default-app-template"),
   ("version", .str "1.0.0"),
   ("description", .str "starter"),
   ("license", .str "MIT")]

/-- A benign world: all tools available, a clean working directory, a
well-formed cloned template (with a lockfile), and every spawned
command succeeding. -/
def cleanEnv : Env :=
  { checks := allChecks
    promptName := "my-lithia-app"
    promptTemplate := defaultTemplate
    promptInstallDeps := true
    promptPackageManager := "npm"
    promptInitGit := true
    promptOverwrite := false
    dirExists := false
    gitDirExists := true
    pkgLockExists := true
    pkg := samplePkg
    cloneOk := true
    gitInitOk := true
    installOk := true }

theorem jlookup_setKey_self (k : String) (v : JValue) :
    ∀ m : Manifest, jlookup k (setKey k v m) = some v
  | [] => by simp [setKey, jlookup]
  | (a, b) :: rest => by
    by_cases h : a = k
    · simp [setKey, h, jlookup]
    · simp [setKey, h, jlookup, jlookup_setKey_self k v rest]

theorem jlookup_setKey_ne (k k' : String) (v : JValue) (h : k' ≠ k) :
    ∀ m : Manifest, jlookup k' (setKey k v m) = jlookup k' m
  | [] => by simp [setKey, jlookup, Ne.symm h]
  | (a, b) :: rest => by
    by_cases ha : a = k
    · subst ha
      simp [setKey, jlookup, Ne.symm h]
    · simp [setKey, ha, jlookup, jlookup_setKey_ne k k' v h rest]

theorem jlookup_delKey_self (k : String) :
    ∀ m : Manifest, jlookup k (delKey k m) = none
  | [] => by simp [delKey, jlookup]
  | (a, b) :: rest => by
    by_cases ha : a = k
    · simp [delKey, ha, jlookup_delKey_self k rest]
    · simp [delKey, ha, jlookup, jlookup_delKey_self k rest]

theorem jlookup_delKey_ne (k k' : String) (h : k' ≠ k) :
    ∀ m : Manifest, jlookup k' (delKey k m) = jlookup k' m
  | [] => by simp [delKey]
  | (a, b) :: rest => by
    by_cases ha : a = k
    · subst ha
      simp [delKey, jlookup, Ne.symm h, jlookup_delKey_ne a k' h rest]
    · simp [delKey, ha, jlookup, jlookup_delKey_ne k k' h rest]

/-- C4: for every non-empty string whose characters all lie in
`[a-z0-9-]`, `validateProjectName` returns success; the empty string
gets the empty-specific message; any string with a character outside
the class gets the format-specific message. -/
theorem c4_validateProjectName_spec (s : String) :
    (s ≠ "" → s.data.all isAllowedChar = true → validateProjectName s = .valid) ∧
    (s = "" → validateProjectName s = .msg "Project name cannot be empty") ∧
    (s.data.all isAllowedChar = false →
      validateProjectName s = .msg "Project name can only contain lowercase letters, numbers, and hyphens") := by
  refine ⟨?_, ?_, ?_⟩
  · intro h1 h2
    simp [validateProjectName, h1, h2]
  · intro h
    simp [validateProjectName, h]
  · intro h
    have hne : s ≠ "" := by
      intro he
      subst he
      exact absurd h (by decide)
    simp [validateProjectName, hne, h]

/-- Witness for C4 at the inputs `"my-app"`, `""` and `"My_App"`. -/
theorem c4_witness :
    validateProjectName "my-app" = .valid ∧
    validateProjectName "" = .msg "Project name cannot be empty" ∧
    validateProjectName "My_App" = .msg "Project name can only contain lowercase letters, numbers, and hyphens" :=
  ⟨(c4_validateProjectName_spec "my-app").1 (by decide) (by decide),
   (c4_validateProjectName_spec "").2.1 rfl,
   (c4_validateProjectName_spec "My_App").2.2 (by decide)⟩

/-- C9: the manifest rewrite sets `name` to the resolved project
name, sets `version` to `"0.1.0"`, removes `description`, leaves every
other key unchanged, and the write passes indentation `2` to the
serializer. -/
theorem c9_updatePackageJson_spec (pkg : Manifest) (projectName dir : String) (env : Env) :
    jlookup "name" (updatePkg pkg projectName) = some (.str projectName) ∧
    jlookup "version" (updatePkg pkg projectName) = some (.str "0.1.0") ∧
    jlookup "description" (updatePkg pkg projectName) = none ∧
    (∀ k, k ≠ "name" → k ≠ "version" → k ≠ "description" →
      jlookup k (updatePkg pkg projectName) = jlookup k pkg) ∧
    (env.pkg = pkg →
      (updatePackageJson dir projectName env).snd =
        [.fsRead (pjoin dir "package.json"),
         .fsWrite (pjoin dir "package.json") (updatePkg pkg projectName) 2]) := by
  refine ⟨?_, ?_, ?_, ?_, ?_⟩
  · rw [updatePkg, jlookup_delKey_ne _ _ (by decide), jlookup_setKey_ne _ _ _ (by decide),
      jlookup_setKey_self]
  · rw [updatePkg, jlookup_delKey_ne _ _ (by decide), jlookup_setKey_self]
  · rw [updatePkg, jlookup_delKey_self]
  · intro k h1 h2 h3
    rw [updatePkg, jlookup_delKey_ne _ _ h3, jlookup_setKey_ne _ _ _ h2,
      jlookup_setKey_ne _ _ _ h1]
  · intro h
    simp [updatePackageJson, h]

/-- Witness for C9 at the sample manifest and project name
`"demo-app"`, with `"license"` as the untouched key. -/
theorem c9_witness :
    jlookup "license" (updatePkg samplePkg "demo-app") = jlookup "license" samplePkg ∧
    (updatePackageJson "demo-app" "demo-app" cleanEnv).snd =
      [.fsRead "demo-app/package.json",
       .fsWrite "demo-app/package.json" (updatePkg samplePkg "demo-app") 2] :=
  ⟨(c9_updatePackageJson_spec samplePkg "demo-app" "demo-app" cleanEnv).2.2.2.1 "license"
      (by decide) (by decide) (by decide),
   (c9_updatePackageJson_spec samplePkg "demo-app" "demo-app" cleanEnv).2.2.2.2 rfl⟩

/-- C8: with `--yes` set and no `--name`, the run fails with the
name-required error and exit code 1 with an empty trace — before any
probe subprocess, filesystem or network action. -/
theorem c8_yes_without_name (options : CLIOptions) (env : Env)
    (hy : options.yes = some true) (hn : options.name = none) :
    runCLI options env = (.failed "Project name is required when using --yes flag", []) ∧
    exitCode (runCLI options env).fst = 1 := by
  have h : validateAndParseArgs options = .error "Project name is required when using --yes flag" := by
    simp [validateAndParseArgs, hy, hn, truthyB, truthyS]
  exact ⟨by simp [runCLI, runPipeline, h], by simp [runCLI, runPipeline, h, exitCode]⟩

/-- Witness for C8: `--yes` alone. -/
theorem c8_witness :
    runCLI { yes := some true } cleanEnv =
      (.failed "Project name is required when using --yes flag", []) ∧
    exitCode (runCLI { yes := some true } cleanEnv).fst = 1 :=
  c8_yes_without_name { yes := some true } cleanEnv rfl rfl

/-- C7 (amended): with both `--install` and `--no-install` set, the
run fails before any prompt, probe, filesystem or network action
(empty trace, exit 1); the error is the conflicting-install-flags one
provided none of the three earlier argument checks (missing name under
`--yes`, invalid template, invalid package manager) fires first. -/
theorem c7_conflicting_install_flags (options : CLIOptions) (env : Env)
    (hi : truthyB options.install = true) (hni : truthyB options.noInstall = true)
    (h1 : (truthyB options.yes && !truthyS options.name) = false)
    (h2 : invalidTemplate options = false)
    (h3 : invalidPackageManager options = false) :
    runCLI options env = (.failed "Cannot use both --install and --no-install", []) ∧
    exitCode (runCLI options env).fst = 1 := by
  have h : validateAndParseArgs options = .error "Cannot use both --install and --no-install" := by
    simp [validateAndParseArgs, h1, h2, h3, hi, hni]
  exact ⟨by simp [runCLI, runPipeline, h], by simp [runCLI, runPipeline, h, exitCode]⟩

/-- Witness for C7 as amended: both install flags with a name. -/
theorem c7_witness :
    runCLI { name := some "demo-app", install := some true, noInstall := some true } cleanEnv =
      (.failed "Cannot use both --install and --no-install", []) ∧
    exitCode (runCLI { name := some "demo-app", install := some true, noInstall := some true } cleanEnv).fst = 1 :=
  c7_conflicting_install_flags
    { name := some "demo-app", install := some true, noInstall := some true } cleanEnv
    rfl rfl (by decide) (by decide) (by decide)

/-- Counterexample to C7 as stated: with `--yes`, no `--name`, and
both install flags set, config resolution fails with the name-required
error, not the conflicting-install-flags error. -/
theorem c7_counterexample :
    runCLI { yes := some true, install := some true, noInstall := some true } cleanEnv =
      (.failed "Project name is required when using --yes flag", []) ∧
    Outcome.failed "Project name is required when using --yes flag"
      ≠ Outcome.failed "Cannot use both --install and --no-install" :=
  ⟨by decide, by decide⟩

/-- C5: in non-interactive mode, an explicitly requested package
manager that the probe snapshot reports unavailable makes resolution
fail with an error naming it; the trace holds only the five probes —
no materializer step (in particular no clone) is attempted. -/
theorem c5_unavailable_package_manager (options : CLIOptions) (env : Env) (n pm : String)
    (hval : validateAndParseArgs options = .ok options)
    (hy : options.yes = some true) (hn : options.name = some n) (hne : n ≠ "")
    (hp : options.packageManager = some pm) (hpne : pm ≠ "")
    (hc : env.checks.lookup pm = false) :
    runCLI options env =
      (.failed ("Package manager " ++ pm ++ " not available"),
       [.probe "npm", .probe "yarn", .probe "pnpm", .probe "bun", .probe "git"]) ∧
    ((runCLI options env).snd.all fun e => !materializerEvent e) = true := by
  have hts : truthyS (some n) = true := by simp [truthyS, hne]
  have hpm : truthyS (some pm) = true := by simp [truthyS, hpne]
  have hmain : runCLI options env =
      (.failed ("Package manager " ++ pm ++ " not available"),
       [.probe "npm", .probe "yarn", .probe "pnpm", .probe "bun", .probe "git"]) := by
    simp [runCLI, runPipeline, hval, getProjectConfig, checkSystemDependencies,
      getBaseConfig, getAutoConfig, pbind, hy, hn, hp, hts, hpm, hc, truthyB]
  refine ⟨hmain, ?_⟩
  rw [hmain]
  simp [materializerEvent]

/-- Witness for C5: `--yes --name demo-app --package-manager pnpm`
with `pnpm` probed unavailable. -/
theorem c5_witness :
    runCLI { yes := some true, name := some "demo-app", packageManager := some "pnpm" }
        { cleanEnv with checks := { allChecks with pnpm := false } } =
      (.failed "Package manager pnpm not available",
       [.probe "npm", .probe "yarn", .probe "pnpm", .probe "bun", .probe "git"]) ∧
    ((runCLI { yes := some true, name := some "demo-app", packageManager := some "pnpm" }
        { cleanEnv with checks := { allChecks with pnpm := false } }).snd.all
      fun e => !materializerEvent e) = true :=
  c5_unavailable_package_manager
    { yes := some true, name := some "demo-app", packageManager := some "pnpm" }
    { cleanEnv with checks := { allChecks with pnpm := false } }
    "demo-app" "pnpm" rfl rfl rfl (by decide) rfl (by decide) rfl

/-- `--yes --name demo-app`, with no further flags. -/
def yesDemoOpts : CLIOptions := { yes := some true, name := some "demo-app" }

/-- The benign world, except that the target directory already
exists and the user declines the overwrite confirmation. -/
def existingDirEnv : Env := { cleanEnv with dirExists := true, promptOverwrite := false }

/-- C6: when the target directory exists, overwrite was not
pre-approved and the confirmation is declined, the materializer stops
at `process.exit(0)` having only stat-ed the directory and shown the
prompt (no delete, no clone, no rewrite), and the run wrapper turns
that into a cancellation with exit code 0. -/
theorem c6_decline_overwrite (config : ProjectConfig) (env : Env)
    (opts : CLIOptions) (env' : Env) (t : Trace)
    (ho : truthyB config.overwrite = false) (hd : env.dirExists = true)
    (hp : env.promptOverwrite = false) :
    createProject config env =
      (.exit0, [.fsStat config.projectName, .promptShown "overwrite"]) ∧
    (([Event.fsStat config.projectName, Event.promptShown "overwrite"]).all
      fun e => !destructive e) = true ∧
    (runPipeline opts env' = (.exit0, t) →
      runCLI opts env' = (.canceled, t) ∧ exitCode (runCLI opts env').fst = 0) := by
  refine ⟨?_, by simp [destructive], ?_⟩
  · simp [createProject, handleExistingDirectory, pbind, ho, hd, hp]
  · intro h
    exact ⟨by simp [runCLI, h], by simp [runCLI, h, exitCode]⟩

/-- Witness for C6: declining the overwrite prompt on
`--yes --name demo-app` with `demo-app/` present. -/
theorem c6_witness :
    createProject
        { projectName := "demo-app", template := defaultTemplate,
          packageManager := some "npm", installDependencies := true,
          initializeGit := true, overwrite := none } existingDirEnv =
      (.exit0, [.fsStat "demo-app", .promptShown "overwrite"]) ∧
    runCLI yesDemoOpts existingDirEnv =
      (.canceled,
       [.probe "npm", .probe "yarn", .probe "pnpm", .probe "bun", .probe "git",
        .fsStat "demo-app", .promptShown "overwrite"]) ∧
    exitCode (runCLI yesDemoOpts existingDirEnv).fst = 0 :=
  ⟨(c6_decline_overwrite
      { projectName := "demo-app", template := defaultTemplate,
        packageManager := some "npm", installDependencies := true,
        initializeGit := true, overwrite := none } existingDirEnv
      yesDemoOpts existingDirEnv
      [.probe "npm", .probe "yarn", .probe "pnpm", .probe "bun", .probe "git",
       .fsStat "demo-app", .promptShown "overwrite"] rfl rfl rfl).1,
   ((c6_decline_overwrite
      { projectName := "demo-app", template := defaultTemplate,
        packageManager := some "npm", installDependencies := true,
        initializeGit := true, overwrite := none } existingDirEnv
      yesDemoOpts existingDirEnv
      [.probe "npm", .probe "yarn", .probe "pnpm", .probe "bun", .probe "git",
       .fsStat "demo-app", .promptShown "overwrite"] rfl rfl rfl).2.2 (by decide)).1,
   ((c6_decline_overwrite
      { projectName := "demo-app", template := defaultTemplate,
        packageManager := some "npm", installDependencies := true,
        initializeGit := true, overwrite := none } existingDirEnv
      yesDemoOpts existingDirEnv
      [.probe "npm", .probe "yarn", .probe "pnpm", .probe "bun", .probe "git",
       .fsStat "demo-app", .promptShown "overwrite"] rfl rfl rfl).2.2 (by decide)).2⟩

/-- `--yes --name My_App`: a flag-supplied name violating the naming
rule. -/
def invalidNameOpts : CLIOptions := { yes := some true, name := some "My_App" }

/-- C1 (code bug): `getBaseConfig` calls `validateProjectName` on the
flag-supplied name but discards its return value, so a name that the
validator rejects does not make resolution fail — the run completes
with exit code 0 and the materializer executes (the clone command
runs), contradicting the fatal-validation-error claim. -/
theorem c1_flag_name_not_validated :
    validateProjectName "My_App" =
      .msg "Project name can only contain lowercase letters, numbers, and hyphens" ∧
    (runCLI invalidNameOpts cleanEnv).fst = .completed ∧
    exitCode (runCLI invalidNameOpts cleanEnv).fst = 0 ∧
    Event.execCmd (cloneCmd defaultTemplate) "My_App" ∈ (runCLI invalidNameOpts cleanEnv).snd :=
  ⟨by decide, by decide, by decide, by decide⟩

/-- The resolved plan for `--yes --name demo-app --no-git
--no-install` style runs: no optional step requested. -/
def plainConfig : ProjectConfig :=
  { projectName := "demo-app", template := defaultTemplate,
    packageManager := some "npm", installDependencies := false,
    initializeGit := false, overwrite := none }

/-- Counterexample to C2 as stated: on a clean successful run the
materializer's trace puts the manifest read/write strictly before the
`.git` removal, so the git-metadata stripping does not precede the
manifest rewrite. -/
theorem c2_counterexample :
    (createProject plainConfig cleanEnv).snd =
      [.fsStat "demo-app", .fsMkdir "demo-app",
       .execCmd (cloneCmd defaultTemplate) "demo-app",
       .fsRead "demo-app/package.json",
       .fsWrite "demo-app/package.json" (updatePkg samplePkg "demo-app") 2,
       .fsRm "demo-app/.git", .fsRm "demo-app/package-lock.json"] ∧
    ¬ (createProject plainConfig cleanEnv).snd.indexOf (Event.fsRm "demo-app/.git")
        < (createProject plainConfig cleanEnv).snd.indexOf
            (Event.fsWrite "demo-app/package.json" (updatePkg samplePkg "demo-app") 2) :=
  ⟨by decide, by decide⟩

/-- C2 (amended): for every run reaching the materializer in which
each step succeeds, the steps execute strictly in the order: directory
preparation, template clone, manifest rewrite, git metadata stripping
(`.git` removal, then `package-lock.json` removal), optional git
initialization, optional dependency installation — the `.git` removal
happens after the package manifest is rewritten. -/
theorem c2_step_order (config : ProjectConfig) (env : Env)
    (hd : env.dirExists = false) (hc : env.cloneOk = true)
    (hg : env.gitDirExists = true) (hl : env.pkgLockExists = true)
    (hgi : env.gitInitOk = true) (hio : env.installOk = true) :
    createProject config env =
      (.ok (),
       [.fsStat config.projectName, .fsMkdir config.projectName,
        .execCmd (cloneCmd config.template) config.projectName,
        .fsRead (pjoin config.projectName "package.json"),
        .fsWrite (pjoin config.projectName "package.json") (updatePkg env.pkg config.projectName) 2,
        .fsRm (pjoin config.projectName ".git"),
        .fsRm (pjoin config.projectName "package-lock.json")]
       ++ (if config.initializeGit then [.execCmd "git init" config.projectName] else [])
       ++ (if config.installDependencies && truthyS config.packageManager then
             [.execCmd (config.packageManager.getD "" ++ " install") config.projectName]
           else [])) := by
  cases h1 : config.initializeGit <;>
    cases h2 : config.installDependencies && truthyS config.packageManager <;>
      simp [createProject, handleExistingDirectory, cloneTemplate, executeCommand,
        updatePackageJson, rmStep, pbind, hd, hc, hg, hl, hgi, hio, h1, h2]

/-- Witness for C2 as amended: the plain run with no optional steps. -/
theorem c2_witness :
    createProject plainConfig cleanEnv =
      (.ok (),
       [.fsStat "demo-app", .fsMkdir "demo-app",
        .execCmd (cloneCmd defaultTemplate) "demo-app",
        .fsRead (pjoin "demo-app" "package.json"),
        .fsWrite (pjoin "demo-app" "package.json") (updatePkg samplePkg "demo-app") 2,
        .fsRm (pjoin "demo-app" ".git"),
        .fsRm (pjoin "demo-app" "package-lock.json")]
       ++ (if plainConfig.initializeGit then [.execCmd "git init" "demo-app"] else [])
       ++ (if plainConfig.installDependencies && truthyS plainConfig.packageManager then
             [.execCmd (plainConfig.packageManager.getD "" ++ " install") "demo-app"]
           else [])) :=
  c2_step_order plainConfig cleanEnv rfl rfl rfl rfl rfl rfl

/-- Interactive run with `--name demo-app --template default
--package-manager npm --no-install --git`: only the install confirm
remains undetermined by flags, under the claim's reading. -/
def noInstallOpts : CLIOptions :=
  { name := some "demo-app", template := some "default",
    packageManager := some "npm", noInstall := some true, git := some true }

/-- A base config as `getBaseConfig` produces it for a plain run. -/
def sampleBase : BaseConfig :=
  { projectName := "demo-app", template := defaultTemplate,
    installDependencies := true, initializeGit := true, packageManager := none }

/-- Counterexample to C3 as stated: in an interactive run where only
`--no-install` (and no `--install`) was given, the install-dependencies
confirmation is still shown. -/
theorem c3_counterexample :
    Event.promptShown "installDependencies" ∈ (runCLI noInstallOpts cleanEnv).snd :=
  by decide

/-- C3 (amended): in interactive mode the install-dependencies
confirmation is skipped exactly when the `--install` flag was given
(`options.install` defined); the `--no-install` flag alone does not
skip it. -/
theorem c3_install_prompt_condition (options : CLIOptions) (checks : SystemDeps)
    (base : BaseConfig) (env : Env) :
    Event.promptShown "installDependencies" ∈ (getInteractiveConfig options checks base env).snd
      ↔ options.install = none := by
  rcases ho : options.install with _ | b <;> simp [getInteractiveConfig, ho]

/-- Witness for C3 as amended: with no `--install` flag the prompt is
in the interactive trace. -/
theorem c3_witness :
    Event.promptShown "installDependencies" ∈
      (getInteractiveConfig { noInstall := some true } allChecks sampleBase cleanEnv).snd :=
  (c3_install_prompt_condition { noInstall := some true } allChecks sampleBase cleanEnv).mpr rfl

/-- The benign world, except that the cloned template ships no
`package-lock.json`. -/
def noLockEnv : Env := { cleanEnv with pkgLockExists := false }

/-- C10: when the cloned template has no `package-lock.json`, the
materializer's unconditional `rm` (no `force` option) rejects after
the clone, rewrite and `.git` removal succeeded, and the run wrapper
turns the rejection into a fatal error with exit code 1. -/
theorem c10_missing_lockfile (config : ProjectConfig) (env : Env)
    (opts : CLIOptions) (env' : Env) (m : String) (t : Trace)
    (hd : env.dirExists = false) (hc : env.cloneOk = true)
    (hg : env.gitDirExists = true) (hl : env.pkgLockExists = false) :
    createProject config env =
      (.err ("ENOENT: no such file or directory, rm " ++ pjoin config.projectName "package-lock.json"),
       [.fsStat config.projectName, .fsMkdir config.projectName,
        .execCmd (cloneCmd config.template) config.projectName,
        .fsRead (pjoin config.projectName "package.json"),
        .fsWrite (pjoin config.projectName "package.json") (updatePkg env.pkg config.projectName) 2,
        .fsRm (pjoin config.projectName ".git")]) ∧
    (runPipeline opts env' = (.err m, t) →
      runCLI opts env' = (.failed m, t) ∧ exitCode (runCLI opts env').fst = 1) := by
  refine ⟨?_, ?_⟩
  · simp [createProject, handleExistingDirectory, cloneTemplate, executeCommand,
      updatePackageJson, rmStep, pbind, hd, hc, hg, hl]
  · intro h
    exact ⟨by simp [runCLI, h], by simp [runCLI, h, exitCode]⟩

/-- Witness for C10: `--yes --name demo-app` against a template with
no lockfile aborts with exit code 1. -/
theorem c10_witness :
    createProject plainConfig noLockEnv =
      (.err "ENOENT: no such file or directory, rm demo-app/package-lock.json",
       [.fsStat "demo-app", .fsMkdir "demo-app",
        .execCmd (cloneCmd defaultTemplate) "demo-app",
        .fsRead "demo-app/package.json",
        .fsWrite "demo-app/package.json" (updatePkg samplePkg "demo-app") 2,
        .fsRm "demo-app/.git"]) ∧
    runCLI yesDemoOpts noLockEnv =
      (.failed "ENOENT: no such file or directory, rm demo-app/package-lock.json",
       [.probe "npm", .probe "yarn", .probe "pnpm", .probe "bun", .probe "git",
        .fsStat "demo-app", .fsMkdir "demo-app",
        .execCmd (cloneCmd defaultTemplate) "demo-app",
        .fsRead "demo-app/package.json",
        .fsWrite "demo-app/package.json" (updatePkg samplePkg "demo-app") 2,
        .fsRm "demo-app/.git"]) ∧
    exitCode (runCLI yesDemoOpts noLockEnv).fst = 1 :=
  ⟨(c10_missing_lockfile plainConfig noLockEnv yesDemoOpts noLockEnv
      "ENOENT: no such file or directory, rm demo-app/package-lock.json"
      [.probe "npm", .probe "yarn", .probe "pnpm", .probe "bun", .probe "git",
       .fsStat "demo-app", .fsMkdir "demo-app",
       .execCmd (cloneCmd defaultTemplate) "demo-app",
       .fsRead "demo-app/package.json",
       .fsWrite "demo-app/package.json" (updatePkg samplePkg "demo-app") 2,
       .fsRm "demo-app/.git"] rfl rfl rfl rfl).1,
   ((c10_missing_lockfile plainConfig noLockEnv yesDemoOpts noLockEnv
      "ENOENT: no such file or directory, rm demo-app/package-lock.json"
      [.probe "npm", .probe "yarn", .probe "pnpm", .probe "bun", .probe "git",
       .fsStat "demo-app", .fsMkdir "demo-app",
       .execCmd (cloneCmd defaultTemplate) "demo-app",
       .fsRead "demo-app/package.json",
       .fsWrite "demo-app/package.json" (updatePkg samplePkg "demo-app") 2,
       .fsRm "demo-app/.git"] rfl rfl rfl rfl).2 (by decide)).1,
   ((c10_missing_lockfile plainConfig noLockEnv yesDemoOpts noLockEnv
      "ENOENT: no such file or directory, rm demo-app/package-lock.json"
      [.probe "npm", .probe "yarn", .probe "pnpm", .probe "bun", .probe "git",
       .fsStat "demo-app", .fsMkdir "demo-app",
       .execCmd (cloneCmd defaultTemplate) "demo-app",
       .fsRead "demo-app/package.json",
       .fsWrite "demo-app/package.json" (updatePkg samplePkg "demo-app") 2,
       .fsRm "demo-app/.git"] rfl rfl rfl rfl).2 (by decide)).2⟩

end CLA
